import Mathlib

/-!
Shallow embedding of the asset-manager domain layer (FilloSoft/asset-mgr).

Entities mirror `src/db/schema.ts`; operations mirror the route handlers in
`src/app/api/...` and the unnamed route files.  Timestamps are modelled as
abstract `Nat` instants, SQL `NULL` as `Option.none`, and the relational
store as explicit lists of rows.  Database statements become pure functions
on the store; the only effectful aspect the claims need — a storage error
striking between the two sequential statements of the asset-delete cascade —
is modelled by an explicit fault parameter.
-/

namespace AssetMgr

/-! ### Identifier validation

Every route handler checks path identifiers against
`/^[0-9a-f]{8}-[0-9a-f]{4}-[0-9a-f]{4}-[0-9a-f]{4}-[0-9a-f]{12}$/i`.
The zod `.uuid()` refinements in `src/db/schema.ts` accept the same
8-4-4-4-12 hexadecimal shape; we use one predicate for both. -/

def isHexChar (c : Char) : Bool :=
  c.isDigit || ('a' ≤ c && c ≤ 'f') || ('A' ≤ c && c ≤ 'F')

/-- Split a character list at every occurrence of `sep` (the semantics of
splitting a string on a one-character separator). -/
def splitOnChar (sep : Char) : List Char → List (List Char)
  | [] => [[]]
  | c :: rest =>
    let r := splitOnChar sep rest
    if c == sep then [] :: r
    else
      match r with
      | [] => [[c]]
      | g :: gs => (c :: g) :: gs

def hexGroup (g : List Char) (n : Nat) : Bool :=
  g.length == n && g.all isHexChar

def uuidTest (s : String) : Bool :=
  match splitOnChar '-' s.data with
  | [a, b, c, d, e] =>
    hexGroup a 8 && hexGroup b 4 && hexGroup c 4 && hexGroup d 4 && hexGroup e 12
  | _ => false

/-- `String.trim` re-implemented by structural recursion so that concrete
instances evaluate inside the kernel. -/
def strTrim (s : String) : String :=
  ⟨((s.data.dropWhile Char.isWhitespace).reverse.dropWhile Char.isWhitespace).reverse⟩

/-- Lower-casing, structurally. -/
def strToLower (s : String) : String :=
  ⟨s.data.map Char.toLower⟩

/-! ### SQL `ilike '%v%'`: case-insensitive substring containment -/

def listStartsWith : List Char → List Char → Bool
  | _, [] => true
  | [], _ :: _ => false
  | a :: as, b :: bs => a == b && listStartsWith as bs

def listContainsSub : List Char → List Char → Bool
  | [], needle => needle.isEmpty
  | h :: t, needle => listStartsWith (h :: t) needle || listContainsSub t needle

/-- `ilike(column, '%' + v + '%')` for a pattern-free `v`. -/
def ilikeContains (hay v : String) : Bool :=
  listContainsSub (strToLower hay).data (strToLower v).data

/-! ### Entities (`src/db/schema.ts`) -/

structure Asset where
  id : String
  name : String
  description : String
  taxDecNo : String
  declaredOwner : String
  marketValue : String
  assessedValue : String
  carStatus : Option String
  locationLat : Rat
  locationLng : Rat
  status : String
  address : String
  taxDeclarationNo : String
  tctNo : String
  areaPerSqM : String
  locationOfPropery : String
  barangay : String
  bidder : String
  auctionDate : Nat
  dateOfCertificationOfSale : Nat
  entryNo : String
  detailsShortUpdateLog : String
  createdAt : Nat
  updatedAt : Nat
deriving Repr, DecidableEq

structure Project where
  id : String
  name : String
  description : Option String
  status : String
  assetId : Option String
  startDate : Option Nat
  endDate : Option Nat
  assignedAt : Option Nat
  createdAt : Nat
  updatedAt : Nat
deriving Repr, DecidableEq

structure CaseStatus where
  id : String
  rtc : String
  case_no : String
  lastUpdatedAt : Nat
  details : Option String
  judge : Option String
  assetId : Option String
  projectId : Option String
deriving Repr, DecidableEq

structure Note where
  id : String
  content : String
  assetId : Option String
  projectId : Option String
  caseId : Option String
  createdAt : Nat
  updatedAt : Nat
deriving Repr, DecidableEq

structure Store where
  assets : List Asset
  projects : List Project
  cases : List CaseStatus
  notes : List Note
deriving Repr, DecidableEq

/-! ### Project list filter (`src/app/api/projects/route.ts`, GET, lines 43-60)

For a non-blank `assetId` query value the handler pushes one of three
conditions: `isNull(projects.assetId)` for (case-insensitive) "unassigned",
`isNotNull(projects.assetId)` for "assigned", and otherwise
`or(eq(projects.assetId, trimmed), ilike(assets.name, %trimmed%))` where
`assets` is the left-joined asset row (`leftJoin(assets, eq(projects.assetId,
assets.id))`); a `NULL` joined name makes the `ilike` false.

`projects.asset_id` is a Postgres `uuid` column, so the parameter bound by
the `eq` branch is typed `uuid` at bind time: when the trimmed value is not a
well-formed uuid, Postgres rejects the bind (`invalid input syntax for type
uuid`), the whole query throws before producing rows, and the route's catch
returns an opaque 500.  `condHolds` below gives the per-row semantics of a
condition *whose parameters bind*; `condBinds` is the bind-time check. -/

inductive AssetCond
  | isNullC
  | isNotNullC
  | eqOrNameLikeC (v : String)
deriving Repr, DecidableEq

def assetFilterCondition (assetId : String) : Option AssetCond :=
  let t := strTrim assetId
  if t.length ≠ 0 then
    let l := strToLower t
    if l = "unassigned" then some .isNullC
    else if l = "assigned" then some .isNotNullC
    else some (.eqOrNameLikeC t)
  else none

def joinedAsset (s : Store) (p : Project) : Option Asset :=
  match p.assetId with
  | none => none
  | some aid => s.assets.find? (fun a => a.id == aid)

def condHolds (s : Store) (c : AssetCond) (p : Project) : Bool :=
  match c with
  | .isNullC => p.assetId.isNone
  | .isNotNullC => p.assetId.isSome
  | .eqOrNameLikeC v =>
    (p.assetId == some v) ||
      (match joinedAsset s p with
       | some a => ilikeContains a.name v
       | none => false)

/-- Bind-time typing of the condition's parameters: the `eq` on the `uuid`
column binds the filter value as `uuid` and aborts the query for a non-uuid
string; the null checks bind no parameter (the `ilike` parameter is `text`
and always binds). -/
def condBinds : AssetCond → Bool
  | .eqOrNameLikeC v => uuidTest v
  | _ => true

inductive QueryResult (α : Type) where
  | rows (x : α)
  | pgError (msg : String)
deriving Repr, DecidableEq

/-- The projects passing the `assetId` query filter (the handler's `where`
condition before `orderBy`/`limit`/`offset` are applied), or the Postgres
bind error aborting the query when the filter value cannot be typed as
`uuid`. -/
def projectsAssetFilter (s : Store) (v : String) : QueryResult (List Project) :=
  match assetFilterCondition v with
  | none => .rows s.projects
  | some c =>
    if condBinds c then .rows (s.projects.filter (condHolds s c))
    else .pgError "invalid input syntax for type uuid"

/-! ### Pagination (`src/unnamed/part_015`, GET /api/assets; same shape in the
projects list handler): `offset = (page-1)*limit`, response reports the total
row count of the filtered query and `pages = Math.ceil(total / limit)`. -/

structure PageInfo where
  page : Nat
  limit : Nat
  total : Nat
  pages : Nat
deriving Repr, DecidableEq

def pagesFor (total limit : Nat) : Nat :=
  (total + limit - 1) / limit

inductive ApiResult (α : Type) where
  | serverError
  | ok (x : α)
deriving Repr, DecidableEq

/-- Status condition of the assets list (`eq(assets.status, status)` when a
status filter is present). The free-text `search` condition is orthogonal to
the claims and omitted. -/
def assetCondHolds (status? : Option String) (a : Asset) : Bool :=
  match status? with
  | none => true
  | some st => a.status == st

/-- GET /api/assets (`src/unnamed/part_015`): filter, order by `createdAt`
descending, slice `[offset, offset+limit)`, report pagination. -/
def GET_assets (s : Store) (status? : Option String) (page limit : Nat) :
    List Asset × PageInfo :=
  let matched := s.assets.filter (assetCondHolds status?)
  let sorted := List.insertionSort (fun a b => b.createdAt ≤ a.createdAt) matched
  ((sorted.drop ((page - 1) * limit)).take limit,
    ⟨page, limit, matched.length, pagesFor matched.length limit⟩)

def mkProjectsPage (s : Store) (status? : Option String) (acond? : Option AssetCond)
    (page limit : Nat) : ApiResult (List Project × PageInfo) :=
  let matched := s.projects.filter fun p =>
    (match status? with
     | none => true
     | some st => p.status == st) &&
    (match acond? with
     | none => true
     | some c => condHolds s c p)
  let sorted := List.insertionSort (fun a b => b.createdAt ≤ a.createdAt) matched
  .ok ((sorted.drop ((page - 1) * limit)).take limit,
    ⟨page, limit, matched.length, pagesFor matched.length limit⟩)

/-- GET /api/projects (`src/app/api/projects/route.ts`). The handler performs
no identifier-format validation on the `assetId` query parameter: the raw
value flows into the query conditions, so a non-keyword value that is not a
well-formed uuid makes the query throw at bind time and the catch-all returns
an opaque 500 (`serverError`); otherwise the outcome is a 200 payload.  The
joined asset enrichment of each row is omitted; `search` is omitted. -/
def GET_projects (s : Store) (status? assetId? : Option String) (page limit : Nat) :
    ApiResult (List Project × PageInfo) :=
  match assetId? with
  | none => mkProjectsPage s status? none page limit
  | some v =>
    match assetFilterCondition v with
    | none => mkProjectsPage s status? none page limit
    | some c =>
      if condBinds c then mkProjectsPage s status? (some c) page limit
      else .serverError

/-! ### GET /api/assets/[id] (`src/app/api/assets/[id]/route.ts`) -/

inductive GetAssetResult where
  | invalidId
  | notFound
  | found (a : Asset) (relatedProjects : List Project)
deriving Repr, DecidableEq

def GET_assetById (s : Store) (id : String) : GetAssetResult :=
  if !uuidTest id then .invalidId
  else
    match s.assets.find? (fun a => a.id == id) with
    | none => .notFound
    | some a => .found a (s.projects.filter (fun p => p.assetId == some id))

/-! ### PUT /api/projects/[id] (`src/app/api/projects/route.ts`, lines 410-497)

`updateProjectSchema` is a partial schema: a field absent from the payload is
absent from `validatedData`, and drizzle's `.set` skips absent (undefined)
columns.  The handler then builds
`{ ...validatedData, assignedAt: validatedData.assetId ? new Date() : null,
updatedAt: new Date() }`, so `assignedAt` is always present in the set payload:
the current time when the payload carries a non-null `assetId`, `null`
otherwise — including when the payload omits `assetId` entirely.
`Option.none` on an outer layer means "field absent from the payload". -/

structure ProjectUpdateData where
  name : Option String := none
  description : Option (Option String) := none
  status : Option String := none
  assetId : Option (Option String) := none
  startDate : Option (Option Nat) := none
  endDate : Option (Option Nat) := none
  assignedAt : Option (Option Nat) := none
deriving Repr, DecidableEq

/-- `validatedData.assetId ? new Date() : null` (a validated `assetId` is a
non-empty uuid string, hence truthy exactly when present and non-null). -/
def assignedAtFromPayload (d : ProjectUpdateData) (now : Nat) : Option Nat :=
  match d.assetId with
  | some (some _) => some now
  | _ => none

def applyProjectUpdateSet (p : Project) (d : ProjectUpdateData) (now : Nat) : Project :=
  { p with
    name := d.name.getD p.name
    description := d.description.getD p.description
    status := d.status.getD p.status
    assetId := d.assetId.getD p.assetId
    startDate := d.startDate.getD p.startDate
    endDate := d.endDate.getD p.endDate
    assignedAt := assignedAtFromPayload d now
    updatedAt := now }

inductive UpdateProjectResult where
  | invalidId
  | notFound
  | updated (p : Project)
deriving Repr, DecidableEq

def PUT_projectById (s : Store) (id : String) (d : ProjectUpdateData) (now : Nat) :
    UpdateProjectResult × Store :=
  if !uuidTest id then (.invalidId, s)
  else
    let updatedRows :=
      s.projects.map fun p => if p.id == id then applyProjectUpdateSet p d now else p
    match s.projects.find? (fun p => p.id == id) with
    | none => (.notFound, { s with projects := updatedRows })
    | some p => (.updated (applyProjectUpdateSet p d now), { s with projects := updatedRows })

/-! ### DELETE /api/assets/[id] (`src/app/api/assets/[id]/route.ts`, lines 150-206)

Two sequential statements, not wrapped in a transaction:
1. `update(projects).set({assetId: null, assignedAt: null})
       .where(eq(projects.assetId, id))`
2. `delete(assets).where(eq(assets.id, id)).returning()`
The schema's foreign keys (`src/db/schema.ts`) carry `onDelete: "set null"`,
so the row delete itself also nulls `assetId` on any referencing Project,
Case and Note (the foreign-key action touches only the referencing column,
not `assignedAt`).  A storage error in either statement aborts the request
with a 500 while leaving any statement that already ran applied; the fault
parameter picks the failure point. -/

inductive StorageFault where
  | noFault
  | failUnlink
  | failDelete
deriving Repr, DecidableEq

def unlinkProjectsOfAsset (ps : List Project) (aid : String) : List Project :=
  ps.map fun p =>
    if p.assetId == some aid then { p with assetId := none, assignedAt := none } else p

/-- DB-level semantics of statement 2: delete the asset row (if present) and
fire the `onDelete: "set null"` actions on referencing rows. -/
def assetRowDelete (s : Store) (aid : String) : Store × Option Asset :=
  match s.assets.find? (fun a => a.id == aid) with
  | none => (s, none)
  | some a =>
    ({ assets := s.assets.filter fun b => !(b.id == aid)
       projects := s.projects.map fun p =>
         if p.assetId == some aid then { p with assetId := none } else p
       cases := s.cases.map fun c =>
         if c.assetId == some aid then { c with assetId := none } else c
       notes := s.notes.map fun n =>
         if n.assetId == some aid then { n with assetId := none } else n },
      some a)

inductive DeleteAssetResult where
  | invalidId
  | storageError
  | notFound
  | deleted (a : Asset)
deriving Repr, DecidableEq

def DELETE_assetById (s : Store) (id : String) (fault : StorageFault) :
    DeleteAssetResult × Store :=
  if !uuidTest id then (.invalidId, s)
  else
    match fault with
    | .failUnlink => (.storageError, s)
    | .failDelete => (.storageError, { s with projects := unlinkProjectsOfAsset s.projects id })
    | .noFault =>
      let s1 := { s with projects := unlinkProjectsOfAsset s.projects id }
      match assetRowDelete s1 id with
      | (s2, none) => (.notFound, s2)
      | (s2, some a) => (.deleted a, s2)

/-! ### PUT/DELETE /api/assets/[id]/projects/[projectId] (`src/unnamed/part_014`) -/

inductive AssignResult where
  | invalidId
  | assetNotFound
  | projectNotFound
  | assigned (p : Project)
deriving Repr, DecidableEq

/-- Assign an existing project to an asset: after uuid checks and two existence
lookups, the update is unconditional — no check of the project's current
`assetId`/`assignedAt`. -/
def PUT_assignProject (s : Store) (assetId projectId : String) (now : Nat) :
    AssignResult × Store :=
  if !(uuidTest assetId && uuidTest projectId) then (.invalidId, s)
  else
    match s.assets.find? (fun a => a.id == assetId) with
    | none => (.assetNotFound, s)
    | some _ =>
      match s.projects.find? (fun p => p.id == projectId) with
      | none => (.projectNotFound, s)
      | some p =>
        (.assigned { p with assetId := some assetId, assignedAt := some now, updatedAt := now },
         { s with projects := s.projects.map fun q =>
            if q.id == projectId
            then { q with assetId := some assetId, assignedAt := some now, updatedAt := now }
            else q })

inductive UnassignResult where
  | invalidId
  | notApplicable
  | unassigned (p : Project)
deriving Repr, DecidableEq

/-- Unassign: the select requires `eq(projects.id, projectId) AND
eq(projects.assetId, assetId)`; when it finds nothing the handler returns 404
("Project not found or not assigned to this asset") without touching the
store. -/
def DELETE_unassignProject (s : Store) (assetId projectId : String) (now : Nat) :
    UnassignResult × Store :=
  if !(uuidTest assetId && uuidTest projectId) then (.invalidId, s)
  else
    match s.projects.find? (fun p => p.id == projectId && p.assetId == some assetId) with
    | none => (.notApplicable, s)
    | some p =>
      (.unassigned { p with assetId := none, assignedAt := none, updatedAt := now },
       { s with projects := s.projects.map fun q =>
          if q.id == projectId
          then { q with assetId := none, assignedAt := none, updatedAt := now }
          else q })

/-! ### POST /api/notes (`src/unnamed/part_013`) and `insertNoteSchema`
(`src/db/schema.ts`, lines 321-334)

The handler first runs `normalizeBody`: a truthy string `content` is trimmed;
each truthy reference field goes through `sanitizeNullableId` (trim; blank
becomes null).  JavaScript truthiness on these fields: `undefined`, `null`
and `""` are falsy and left untouched.  Then `insertNoteSchema.parse`:
`content: z.string().min(1).trim()` (the length check runs on the pre-trim
value, the `.trim()` transform after it), each reference
`z.string().uuid().optional().nullable()`, issues from all failing fields
collected; if the base object parses, the `.refine` requires at least one
truthy reference and otherwise attaches its single message to the `assetId`
path. -/

inductive JsonVal where
  | absent
  | nullv
  | str (s : String)
deriving Repr, DecidableEq

structure NotePayload where
  content : Option String
  assetId : JsonVal
  projectId : JsonVal
  caseId : JsonVal
deriving Repr, DecidableEq

def sanitizeNullableId (s : String) : JsonVal :=
  let t := strTrim s
  if t.length == 0 then .nullv else .str t

def normalizeRef : JsonVal → JsonVal
  | .str s => if s.length ≠ 0 then sanitizeNullableId s else .str s
  | v => v

def normalizeNoteContent : Option String → Option String
  | some c => some (if c.length ≠ 0 then strTrim c else c)
  | none => none

def normalizeNoteBody (b : NotePayload) : NotePayload :=
  { content := normalizeNoteContent b.content
    assetId := normalizeRef b.assetId
    projectId := normalizeRef b.projectId
    caseId := normalizeRef b.caseId }

structure Issue where
  path : String
  message : String
deriving Repr, DecidableEq

def parseNoteContent : Option String → Except Issue String
  | none => .error ⟨"content", "Required"⟩
  | some c => if 1 ≤ c.length then .ok (strTrim c) else .error ⟨"content", "Note content is required"⟩

def parseNoteRef (field msg : String) : JsonVal → Except Issue (Option String)
  | .absent => .ok none
  | .nullv => .ok none
  | .str s => if uuidTest s then .ok (some s) else .error ⟨field, msg⟩

structure ParsedNote where
  content : String
  assetId : Option String
  projectId : Option String
  caseId : Option String
deriving Repr, DecidableEq

def issuesOf {α : Type} : Except Issue α → List Issue
  | .error i => [i]
  | .ok _ => []

def insertNoteSchemaParse (b : NotePayload) : Except (List Issue) ParsedNote :=
  let rc := parseNoteContent b.content
  let ra := parseNoteRef "assetId" "Invalid asset ID" b.assetId
  let rp := parseNoteRef "projectId" "Invalid project ID" b.projectId
  let rk := parseNoteRef "caseId" "Invalid case ID" b.caseId
  match rc, ra, rp, rk with
  | .ok c, .ok a, .ok p, .ok k =>
    if a.isSome || p.isSome || k.isSome then .ok ⟨c, a, p, k⟩
    else .error [⟨"assetId", "A note must be linked to an asset, project, or case"⟩]
  | _, _, _, _ => .error (issuesOf rc ++ issuesOf ra ++ issuesOf rp ++ issuesOf rk)

inductive NoteCreateResult where
  | validationError (issues : List Issue)
  | fkViolation
  | created (n : Note)
deriving Repr, DecidableEq

def refTargetExists (ids : List String) : Option String → Bool
  | none => true
  | some r => ids.contains r

/-- POST /api/notes.  A parse failure returns 400 with the issue list and
nothing is inserted; on success the insert can still hit the schema's foreign
keys (a well-formed uuid that references no existing row violates the
constraint, surfaced by the route as an opaque 500). -/
def POST_notes (s : Store) (body : NotePayload) (newId : String) (now : Nat) :
    NoteCreateResult × Store :=
  match insertNoteSchemaParse (normalizeNoteBody body) with
  | .error issues => (.validationError issues, s)
  | .ok d =>
    if refTargetExists (s.assets.map (·.id)) d.assetId &&
       refTargetExists (s.projects.map (·.id)) d.projectId &&
       refTargetExists (s.cases.map (·.id)) d.caseId then
      let n : Note := ⟨newId, d.content, d.assetId, d.projectId, d.caseId, now, now⟩
      (.created n, { s with notes := s.notes ++ [n] })
    else (.fkViolation, s)

/-! ### Geolocation validation (`src/db/schema.ts`, `insertAssetSchema.location`,
lines 240-249): `lat: z.number().min(-90).max(90)`,
`lng: z.number().min(-180).max(180)`; zod reports each failing check as a
field-level issue on the corresponding path.  Numbers are modelled as exact
rationals. -/

def latIssuesFor (lat : Rat) : List Issue :=
  (if lat < -90 then [⟨"location.lat", "Latitude must be between -90 and 90"⟩] else []) ++
  (if 90 < lat then [⟨"location.lat", "Latitude must be between -90 and 90"⟩] else [])

def lngIssuesFor (lng : Rat) : List Issue :=
  (if lng < -180 then [⟨"location.lng", "Longitude must be between -180 and 180"⟩] else []) ++
  (if 180 < lng then [⟨"location.lng", "Longitude must be between -180 and 180"⟩] else [])

def locationParse (lat lng : Rat) : List Issue :=
  latIssuesFor lat ++ lngIssuesFor lng

/-! ### Concrete fixtures for counterexamples and witnesses -/

def uuidA : String := "aaaaaaaa-aaaa-4aaa-8aaa-aaaaaaaaaaaa"
def uuidB : String := "bbbbbbbb-bbbb-4bbb-8bbb-bbbbbbbbbbbb"
def uuidP : String := "cccccccc-cccc-4ccc-8ccc-cccccccccccc"
def uuidQ : String := "dddddddd-dddd-4ddd-8ddd-dddddddddddd"

def mkAsset (id name : String) (createdAt : Nat) : Asset :=
  { id := id, name := name, description := "d", taxDecNo := "t", declaredOwner := "o"
    marketValue := "1", assessedValue := "1", carStatus := none
    locationLat := 0, locationLng := 0, status := "active", address := "a"
    taxDeclarationNo := "t", tctNo := "t", areaPerSqM := "1", locationOfPropery := "l"
    barangay := "b", bidder := "b", auctionDate := 0, dateOfCertificationOfSale := 0
    entryNo := "e", detailsShortUpdateLog := "d", createdAt := createdAt, updatedAt := createdAt }

def mkProject (id name : String) (assetId : Option String) (assignedAt : Option Nat)
    (createdAt : Nat) : Project :=
  { id := id, name := name, description := none, status := "planning"
    assetId := assetId, startDate := none, endDate := none, assignedAt := assignedAt
    createdAt := createdAt, updatedAt := createdAt }

def assetTower : Asset := mkAsset uuidA "Riverside Tower" 0

def projOnTower : Project := mkProject uuidP "P1" (some uuidA) (some 2) 1

/-- One asset named "Riverside Tower" and one project assigned to it. -/
def storeAP : Store := ⟨[assetTower], [projOnTower], [], []⟩

/-- Fifteen stored assets, no filters. -/
def store15 : Store := ⟨(List.range 15).map (fun i => mkAsset uuidA "A" i), [], [], []⟩

/-! ### Claim theorems -/

/-- C9: asset location validation accepts latitude exactly 90 / -90 and
longitude exactly 180 / -180, and rejects with a field-level error exactly the
latitudes outside [-90, 90] and longitudes outside [-180, 180]; in particular
latitude 90.0001 and -90.0001 are rejected. -/
theorem c9_geo_validation :
    (∀ lat lng : Rat, locationParse lat lng = [] ↔
      (-90 ≤ lat ∧ lat ≤ 90 ∧ -180 ≤ lng ∧ lng ≤ 180)) ∧
    locationParse 90 180 = [] ∧
    locationParse (-90) (-180) = [] ∧
    locationParse (900001/10000) 0 ≠ [] ∧
    locationParse (-900001/10000) 0 ≠ [] ∧
    (∀ lat lng : Rat, (lat < -90 ∨ 90 < lat) →
      ∃ i ∈ locationParse lat lng, i.path = "location.lat") := by
  refine ⟨?_, ?_, ?_, ?_, ?_, ?_⟩
  · intro lat lng
    unfold locationParse latIssuesFor lngIssuesFor
    split_ifs <;> simp_all [not_lt]
  · norm_num [locationParse, latIssuesFor, lngIssuesFor]
  · norm_num [locationParse, latIssuesFor, lngIssuesFor]
  · norm_num [locationParse, latIssuesFor, lngIssuesFor]
  · norm_num [locationParse, latIssuesFor, lngIssuesFor]
  · intro lat lng h
    refine ⟨⟨"location.lat", "Latitude must be between -90 and 90"⟩, ?_, rfl⟩
    rcases h with h | h <;> simp [locationParse, latIssuesFor, h]

/-- Witness for C9: latitude 91 produces a field-level error on
`location.lat`. -/
theorem c9_geo_validation_witness :
    ∃ i ∈ locationParse 91 0, i.path = "location.lat" :=
  c9_geo_validation.2.2.2.2.2 91 0 (Or.inr (by norm_num))

/-- C8: for page ≥ 1 and limit ≥ 1, the assets list returns the slice of the
ordered matching rows starting at offset (page-1)*limit, of length
min(limit, n - offset) where n is the number of matching rows, and reports
total = n and pages = ⌈n / limit⌉. -/
theorem c8_pagination (s : Store) (status? : Option String) (page limit : Nat)
    (hp : 1 ≤ page) (hl : 1 ≤ limit) :
    (GET_assets s status? page limit).1 =
      ((List.insertionSort (fun a b => b.createdAt ≤ a.createdAt)
        (s.assets.filter (assetCondHolds status?))).drop ((page - 1) * limit)).take limit ∧
    (GET_assets s status? page limit).1.length =
      min limit ((s.assets.filter (assetCondHolds status?)).length - (page - 1) * limit) ∧
    (GET_assets s status? page limit).2.total = (s.assets.filter (assetCondHolds status?)).length ∧
    (GET_assets s status? page limit).2.pages =
      (s.assets.filter (assetCondHolds status?)).length ⌈/⌉ limit := by
  refine ⟨rfl, ?_, rfl, ?_⟩
  · simp [GET_assets, List.length_insertionSort]
  · simp [GET_assets, pagesFor, Nat.ceilDiv_eq_add_pred_div]

/-- Witness for C8 at the spec's own instance: 15 stored assets, limit 10,
page 2 yield exactly 5 items, total 15 and pages 2. -/
theorem c8_pagination_witness :
    1 ≤ 2 ∧ 1 ≤ 10 ∧
    (GET_assets store15 none 2 10).1.length = 5 ∧
    (GET_assets store15 none 2 10).2.total = 15 ∧
    (GET_assets store15 none 2 10).2.pages = 2 := by
  have h := c8_pagination store15 none 2 10 (by decide) (by decide)
  have hn : (store15.assets.filter (assetCondHolds none)).length = 15 := by
    rw [show (assetCondHolds none) = (fun _ => true) from rfl]
    simp [store15]
  refine ⟨by decide, by decide, ?_, ?_, ?_⟩
  · rw [h.2.1, hn]; decide
  · rw [h.2.2.1, hn]
  · rw [h.2.2.2, hn, Nat.ceilDiv_eq_add_pred_div]

/-- A partial update payload carrying only a new name — `assetId` omitted. -/
def nameOnlyUpdate : ProjectUpdateData := { name := some "Bridge v2" }

def c1After : Project := applyProjectUpdateSet projOnTower nameOnlyUpdate 9

/-- C1: the claimed invariant `(assetId == null) == (assignedAt == null)` is
broken by the single-project update handler on a partial payload that omits
`assetId`: the handler always writes `assignedAt` (null whenever the payload
carries no non-null `assetId`) while drizzle leaves the omitted `assetId`
column untouched, so an assigned project updated with `{name: ...}` ends with
`assetId` non-null and `assignedAt` null — in both the returned project and
the stored row.  Evaluation of the code at the failing input. -/
theorem c1_invariant_broken_by_partial_update :
    (projOnTower.assetId.isSome = projOnTower.assignedAt.isSome) ∧
    (PUT_projectById storeAP uuidP nameOnlyUpdate 9).1 = .updated c1After ∧
    c1After.assetId = some uuidA ∧
    c1After.assignedAt = none ∧
    (((PUT_projectById storeAP uuidP nameOnlyUpdate 9).2.projects.all
        fun p => p.assetId.isNone == p.assignedAt.isNone) = false) := by decide

/-- An asset whose *name* contains the (distinct) uuid `uuidB` as text. -/
def assetDeed : Asset := mkAsset uuidA "Deed bbbbbbbb-bbbb-4bbb-8bbb-bbbbbbbbbbbb" 0

/-- `assetDeed` plus one project assigned to it. -/
def storeDeed : Store := ⟨[assetDeed], [projOnTower], [], []⟩

/-- C2 counterexample: the filter value `uuidB` is a well-formed uuid (so the
bound `eq` parameter types fine and the query runs) and is neither
"unassigned" nor "assigned", yet the returned set is not the projects whose
`assetId` equals it: the project assigned to `uuidA` is returned through the
case-insensitive `ilike` on its joined asset's name, which contains `uuidB`
as text — so the filter is not an exact match on `assetId`. -/
theorem c2_counterexample :
    (uuidB ≠ "unassigned" ∧ uuidB ≠ "assigned") ∧
    uuidTest uuidB = true ∧
    projectsAssetFilter storeDeed uuidB = .rows [projOnTower] ∧
    projOnTower.assetId ≠ some uuidB := by decide

/-- C2 (amended): for a non-blank filter value whose trimmed, lower-cased form
is "unassigned" the filter returns exactly the projects with null `assetId`;
for "assigned" exactly those with non-null `assetId`; for any other value
that is a well-formed uuid after trimming, exactly the projects whose
`assetId` equals the trimmed value or whose joined asset's name contains it
case-insensitively; for any other value that is *not* a well-formed uuid the
bound uuid comparison aborts the whole query with a Postgres cast error (the
route surfaces an opaque 500). -/
theorem c2_assetId_filter_modes (s : Store) (v : String)
    (hv : (strTrim v).length ≠ 0) :
    (strToLower (strTrim v) = "unassigned" →
      ∃ l, projectsAssetFilter s v = .rows l ∧
        ∀ p, p ∈ l ↔ p ∈ s.projects ∧ p.assetId = none) ∧
    (strToLower (strTrim v) = "assigned" →
      ∃ l, projectsAssetFilter s v = .rows l ∧
        ∀ p, p ∈ l ↔ p ∈ s.projects ∧ p.assetId ≠ none) ∧
    (strToLower (strTrim v) ≠ "unassigned" → strToLower (strTrim v) ≠ "assigned" →
      uuidTest (strTrim v) = true →
      ∃ l, projectsAssetFilter s v = .rows l ∧
        ∀ p, p ∈ l ↔ p ∈ s.projects ∧ (p.assetId = some (strTrim v) ∨
          ∃ a, joinedAsset s p = some a ∧ ilikeContains a.name (strTrim v) = true)) ∧
    (strToLower (strTrim v) ≠ "unassigned" → strToLower (strTrim v) ≠ "assigned" →
      uuidTest (strTrim v) = false →
      projectsAssetFilter s v = .pgError "invalid input syntax for type uuid") := by
  refine ⟨?_, ?_, ?_, ?_⟩
  · intro h
    have hc : assetFilterCondition v = some .isNullC := by
      simp [assetFilterCondition, hv, h]
    refine ⟨s.projects.filter (condHolds s .isNullC),
      by simp [projectsAssetFilter, hc, condBinds], ?_⟩
    intro p
    simp [condHolds, List.mem_filter, Option.isNone_iff_eq_none]
  · intro h
    have hc : assetFilterCondition v = some .isNotNullC := by
      simp [assetFilterCondition, hv, h]
    refine ⟨s.projects.filter (condHolds s .isNotNullC),
      by simp [projectsAssetFilter, hc, condBinds], ?_⟩
    intro p
    simp [condHolds, List.mem_filter, Option.isSome_iff_ne_none]
  · intro h1 h2 hu
    have hc : assetFilterCondition v = some (.eqOrNameLikeC (strTrim v)) := by
      simp [assetFilterCondition, hv, h1, h2]
    refine ⟨s.projects.filter (condHolds s (.eqOrNameLikeC (strTrim v))),
      by simp [projectsAssetFilter, hc, condBinds, hu], ?_⟩
    intro p
    rcases hj : joinedAsset s p with _ | a <;>
      simp [condHolds, List.mem_filter, hj]
  · intro h1 h2 hu
    have hc : assetFilterCondition v = some (.eqOrNameLikeC (strTrim v)) := by
      simp [assetFilterCondition, hv, h1, h2]
    simp [projectsAssetFilter, hc, condBinds, hu]

/-- Witness for C2 (amended): a malformed non-keyword filter value aborts the
query with the Postgres cast error. -/
theorem c2_assetId_filter_modes_witness :
    projectsAssetFilter storeDeed "tower" = .pgError "invalid input syntax for type uuid" :=
  (c2_assetId_filter_modes storeDeed "tower" (by decide)).2.2.2
    (by decide) (by decide) (by decide)

/-- C10: assigning any existing project to any existing asset succeeds and
unconditionally overwrites the assignment — `assetId` becomes the target
asset and `assignedAt` the current instant, with no precondition on (and no
error for) the project's previous assignment state. -/
theorem c10_assign_overwrites (s : Store) (assetId projectId : String) (now : Nat)
    (a : Asset) (p : Project)
    (hua : uuidTest assetId = true) (hup : uuidTest projectId = true)
    (ha : s.assets.find? (fun b => b.id == assetId) = some a)
    (hp : s.projects.find? (fun q => q.id == projectId) = some p) :
    (PUT_assignProject s assetId projectId now).1 =
      .assigned { p with assetId := some assetId, assignedAt := some now, updatedAt := now } ∧
    (PUT_assignProject s assetId projectId now).2 =
      { s with projects := s.projects.map fun q =>
          if q.id == projectId
          then { q with assetId := some assetId, assignedAt := some now, updatedAt := now }
          else q } := by
  simp [PUT_assignProject, hua, hup, ha, hp]

def projOnB : Project := mkProject uuidP "P" (some uuidB) (some 5) 1

def storeReassign : Store := ⟨[assetTower, mkAsset uuidB "Other" 0], [projOnB], [], []⟩

/-- Witness for C10 at a project currently assigned to a *different* asset
with an older timestamp: the assignment silently moves to `uuidA` and the
timestamp refreshes from 5 to 9. -/
theorem c10_assign_overwrites_witness :
    (PUT_assignProject storeReassign uuidA uuidP 9).1 =
      .assigned { projOnB with assetId := some uuidA, assignedAt := some 9, updatedAt := 9 } :=
  (c10_assign_overwrites storeReassign uuidA uuidP 9 assetTower projOnB
    (by decide) (by decide) (by decide) (by decide)).1

/-- C7: with well-formed identifiers, unassigning fails with the handler's
"not applicable" 404 and leaves the store unchanged whenever no stored project
has the given id *and* is currently assigned to the given asset (which covers
an already-unassigned project); when such a project exists, the returned
project has `assetId = null` and `assignedAt = null`. -/
theorem c7_unassign (s : Store) (assetId projectId : String) (now : Nat)
    (ha : uuidTest assetId = true) (hp : uuidTest projectId = true) :
    ((∀ p ∈ s.projects, ¬(p.id = projectId ∧ p.assetId = some assetId)) →
      DELETE_unassignProject s assetId projectId now = (.notApplicable, s)) ∧
    (∀ p, s.projects.find? (fun q => q.id == projectId && q.assetId == some assetId) = some p →
      (DELETE_unassignProject s assetId projectId now).1 =
        .unassigned { p with assetId := none, assignedAt := none, updatedAt := now }) ∧
    (∀ q, (DELETE_unassignProject s assetId projectId now).1 = .unassigned q →
      q.assetId = none ∧ q.assignedAt = none) := by
  refine ⟨?_, ?_, ?_⟩
  · intro h
    have hf : s.projects.find?
        (fun q => q.id == projectId && q.assetId == some assetId) = none := by
      rw [List.find?_eq_none]
      intro q hq
      simp only [Bool.and_eq_true, beq_iff_eq]
      intro hcontra
      exact h q hq hcontra
    simp [DELETE_unassignProject, ha, hp, hf]
  · intro p hf
    simp [DELETE_unassignProject, ha, hp, hf]
  · intro q hq
    rcases hf : s.projects.find?
        (fun w => w.id == projectId && w.assetId == some assetId) with _ | p <;>
      simp [DELETE_unassignProject, ha, hp, hf] at hq
    rcases hq with ⟨rfl⟩
    exact ⟨rfl, rfl⟩

def projLoose : Project := mkProject uuidQ "Q" none none 3

def storeLoose : Store := ⟨[assetTower], [projLoose], [], []⟩

/-- Witness for C7: unassigning an already-unassigned project is the
well-defined not-applicable error and leaves the store unchanged. -/
theorem c7_unassign_witness :
    DELETE_unassignProject storeLoose uuidA uuidQ 9 = (.notApplicable, storeLoose) :=
  (c7_unassign storeLoose uuidA uuidQ 9 (by decide) (by decide)).1 (by decide)

/-- C3 counterexample: the delete cascade is two sequential statements with no
transaction, so a storage error during the asset-delete statement (after the
project-unlink update committed) reaches a post-state in which the referencing
project has been unlinked while the asset row still exists — exactly the
state the claim says is unreachable. -/
theorem c3_counterexample :
    ((DELETE_assetById storeAP uuidA .failDelete).2.assets.any fun a => a.id == uuidA) = true ∧
    ((DELETE_assetById storeAP uuidA .failDelete).2.projects.any
        fun p => p.id == uuidP && p.assetId == none && p.assignedAt == none) = true ∧
    (storeAP.projects.any fun p => p.id == uuidP && p.assetId == some uuidA) = true ∧
    (DELETE_assetById storeAP uuidA .failDelete).1 = .storageError := by decide

/-- C3 (amended): each of the two statements is individually atomic but they
are not wrapped in a transaction: a storage error in the unlink statement
leaves the store unchanged, while a storage error in the asset-delete
statement leaves the already-committed unlink applied — every project that
referenced the asset is unlinked although the asset row (and every other
table) is untouched.  Only a fault-free run applies the full cascade. -/
theorem c3_cascade_not_atomic (s : Store) (id : String) (h : uuidTest id = true) :
    (DELETE_assetById s id .failUnlink).2 = s ∧
    (DELETE_assetById s id .failDelete).2.assets = s.assets ∧
    (DELETE_assetById s id .failDelete).2.cases = s.cases ∧
    (DELETE_assetById s id .failDelete).2.notes = s.notes ∧
    (∀ p ∈ s.projects, p.assetId = some id →
      ∃ p' ∈ (DELETE_assetById s id .failDelete).2.projects,
        p'.id = p.id ∧ p'.assetId = none ∧ p'.assignedAt = none) := by
  refine ⟨by simp [DELETE_assetById, h], by simp [DELETE_assetById, h],
    by simp [DELETE_assetById, h], by simp [DELETE_assetById, h], ?_⟩
  intro p hp hpa
  have hm := List.mem_map_of_mem
    (fun q => if q.assetId == some id then { q with assetId := none, assignedAt := none } else q) hp
  refine ⟨{ p with assetId := none, assignedAt := none }, ?_, rfl, rfl, rfl⟩
  simpa [DELETE_assetById, h, unlinkProjectsOfAsset, hpa] using hm

/-- Witness for C3 (amended): a fault in the unlink statement leaves the store
unchanged at the concrete one-asset-one-project store. -/
theorem c3_cascade_not_atomic_witness :
    (DELETE_assetById storeAP uuidA .failUnlink).2 = storeAP :=
  (c3_cascade_not_atomic storeAP uuidA (by decide)).1

/-- C4: a successful (fault-free) delete of an existing asset returns the
deleted row, removes it from the store, and leaves every project, case and
note in place (same count) with every field unchanged except that a project
referencing the asset has both `assetId` and `assignedAt` cleared and a case
or note referencing it has `assetId` cleared; rows not referencing the asset
are untouched. -/
theorem c4_delete_cascade (s : Store) (id : String) (a : Asset)
    (hu : uuidTest id = true)
    (ha : s.assets.find? (fun b => b.id == id) = some a) :
    (DELETE_assetById s id .noFault).1 = .deleted a ∧
    (∀ b ∈ (DELETE_assetById s id .noFault).2.assets, b.id ≠ id) ∧
    (DELETE_assetById s id .noFault).2.projects.length = s.projects.length ∧
    (DELETE_assetById s id .noFault).2.cases.length = s.cases.length ∧
    (DELETE_assetById s id .noFault).2.notes.length = s.notes.length ∧
    (∀ p ∈ s.projects, ∃ p' ∈ (DELETE_assetById s id .noFault).2.projects,
      p'.id = p.id ∧ p'.name = p.name ∧ p'.description = p.description ∧
      p'.status = p.status ∧ p'.startDate = p.startDate ∧ p'.endDate = p.endDate ∧
      p'.createdAt = p.createdAt ∧ p'.updatedAt = p.updatedAt ∧
      (p.assetId = some id → p'.assetId = none ∧ p'.assignedAt = none) ∧
      (p.assetId ≠ some id → p'.assetId = p.assetId ∧ p'.assignedAt = p.assignedAt)) ∧
    (∀ c ∈ s.cases, ∃ c' ∈ (DELETE_assetById s id .noFault).2.cases,
      c'.id = c.id ∧ c'.rtc = c.rtc ∧ c'.case_no = c.case_no ∧
      c'.lastUpdatedAt = c.lastUpdatedAt ∧ c'.details = c.details ∧ c'.judge = c.judge ∧
      c'.projectId = c.projectId ∧
      (c.assetId = some id → c'.assetId = none) ∧
      (c.assetId ≠ some id → c'.assetId = c.assetId)) ∧
    (∀ n ∈ s.notes, ∃ n' ∈ (DELETE_assetById s id .noFault).2.notes,
      n'.id = n.id ∧ n'.content = n.content ∧ n'.projectId = n.projectId ∧
      n'.caseId = n.caseId ∧ n'.createdAt = n.createdAt ∧ n'.updatedAt = n.updatedAt ∧
      (n.assetId = some id → n'.assetId = none) ∧
      (n.assetId ≠ some id → n'.assetId = n.assetId)) := by
  have hrun : DELETE_assetById s id .noFault =
      (.deleted a,
       { assets := s.assets.filter fun b => !(b.id == id)
         projects := (unlinkProjectsOfAsset s.projects id).map fun p =>
           if p.assetId == some id then { p with assetId := none } else p
         cases := s.cases.map fun c => if c.assetId == some id then { c with assetId := none } else c
         notes := s.notes.map fun n => if n.assetId == some id then { n with assetId := none } else n }) := by
    simp [DELETE_assetById, hu, assetRowDelete, ha]
  rw [hrun]
  refine ⟨rfl, ?_, ?_, by simp, by simp, ?_, ?_, ?_⟩
  · intro b hb
    have := (List.mem_filter.mp hb).2
    simpa using this
  · simp [unlinkProjectsOfAsset]
  · intro p hp
    by_cases hpa : p.assetId = some id
    · refine ⟨{ p with assetId := none, assignedAt := none }, ?_, ?_⟩
      · have hm := List.mem_map_of_mem
          (fun q => if q.assetId == some id then { q with assetId := none, assignedAt := none } else q) hp
        have hm2 := List.mem_map_of_mem
          (fun q : Project => if q.assetId == some id then { q with assetId := none } else q)
          (a := (if p.assetId == some id then { p with assetId := none, assignedAt := none } else p)) hm
        simpa [unlinkProjectsOfAsset, hpa] using hm2
      · simp [hpa]
    · refine ⟨p, ?_, ?_⟩
      · have hm := List.mem_map_of_mem
          (fun q => if q.assetId == some id then { q with assetId := none, assignedAt := none } else q) hp
        have hm2 := List.mem_map_of_mem
          (fun q : Project => if q.assetId == some id then { q with assetId := none } else q)
          (a := (if p.assetId == some id then { p with assetId := none, assignedAt := none } else p)) hm
        simpa [unlinkProjectsOfAsset, hpa] using hm2
      · simp [hpa]
  · intro c hc
    by_cases hca : c.assetId = some id
    · refine ⟨{ c with assetId := none }, ?_, ?_⟩
      · have hm := List.mem_map_of_mem
          (fun w : CaseStatus => if w.assetId == some id then { w with assetId := none } else w) hc
        simpa [hca] using hm
      · simp [hca]
    · refine ⟨c, ?_, ?_⟩
      · have hm := List.mem_map_of_mem
          (fun w : CaseStatus => if w.assetId == some id then { w with assetId := none } else w) hc
        simpa [hca] using hm
      · simp [hca]
  · intro n hn
    by_cases hna : n.assetId = some id
    · refine ⟨{ n with assetId := none }, ?_, ?_⟩
      · have hm := List.mem_map_of_mem
          (fun w : Note => if w.assetId == some id then { w with assetId := none } else w) hn
        simpa [hna] using hm
      · simp [hna]
    · refine ⟨n, ?_, ?_⟩
      · have hm := List.mem_map_of_mem
          (fun w : Note => if w.assetId == some id then { w with assetId := none } else w) hn
        simpa [hna] using hm
      · simp [hna]

/-- Witness for C4: deleting the concrete asset returns the deleted row. -/
theorem c4_delete_cascade_witness :
    (DELETE_assetById storeAP uuidA .noFault).1 = .deleted assetTower :=
  (c4_delete_cascade storeAP uuidA assetTower (by decide) (by decide)).1

/-- C5 counterexample: the projects list endpoint performs no identifier
validation on the `assetId` query value.  "riverside" is not a UUID, yet the
request does not short-circuit with a client error before storage: the raw
value flows into the query, whose uuid parameter bind fails inside the store,
and the route's catch returns an opaque 500 server error — not the claimed
client error issued before any store access. -/
theorem c5_counterexample :
    uuidTest "riverside" = false ∧
    GET_projects storeAP none (some "riverside") 1 10 = .serverError := by decide

/-- C5 (amended): identifiers in *path* position are validated against the
UUID regex and short-circuit with a client error before any lookup (the
result is the error constructor for every store, with the store unchanged on
the mutating routes), but the `assetId` *query* filter of the projects list
is not validated: a non-blank malformed value whose lower-cased trim is not
"unassigned"/"assigned" is passed into the store query, fails the uuid
parameter bind there, and surfaces as an opaque 500 storage error — after
reaching storage, not as a client error before it. -/
theorem c5_id_validation (s : Store) (id v : String) (d : ProjectUpdateData)
    (now : Nat) (fault : StorageFault) (page limit : Nat)
    (hid : uuidTest id = false) (hv : uuidTest (strTrim v) = false)
    (hnb : (strTrim v).length ≠ 0)
    (h1 : strToLower (strTrim v) ≠ "unassigned")
    (h2 : strToLower (strTrim v) ≠ "assigned") :
    GET_assetById s id = .invalidId ∧
    PUT_projectById s id d now = (.invalidId, s) ∧
    DELETE_assetById s id fault = (.invalidId, s) ∧
    GET_projects s none (some v) page limit = .serverError := by
  have hc : assetFilterCondition v = some (.eqOrNameLikeC (strTrim v)) := by
    simp [assetFilterCondition, hnb, h1, h2]
  refine ⟨by simp [GET_assetById, hid], by simp [PUT_projectById, hid],
    by simp [DELETE_assetById, hid], ?_⟩
  simp [GET_projects, hc, condBinds, hv]

/-- Witness for C5 (amended): the malformed path id "zzz" is rejected before
any lookup while the malformed query value "riverside" reaches the store and
comes back as a 500. -/
theorem c5_id_validation_witness :
    GET_assetById storeAP "zzz" = .invalidId :=
  (c5_id_validation storeAP "zzz" "riverside" {} 0 .noFault 1 10
    (by decide) (by decide) (by decide) (by decide) (by decide)).1

/-! ### C6 helpers: amended-claim-side predicates for note creation

These three predicates state, over the *raw* request body, the amended
claim's validity condition; the theorems below compare them with the
source-derived parse pipeline. -/

def exceptIsOk {ε α : Type} : Except ε α → Bool
  | .ok _ => true
  | .error _ => false

def optSomeB {ε : Type} : Except ε (Option String) → Bool
  | .ok (some _) => true
  | _ => false

/-- A reference field is acceptable when absent, null, blank after trimming
(the handler normalizes it to null), or a well-formed uuid after trimming;
the raw empty string is falsy in JavaScript, escapes normalization and fails
the uuid check. -/
def refOkAmended : JsonVal → Bool
  | .absent => true
  | .nullv => true
  | .str s =>
    if s.length ≠ 0 then
      (if (strTrim s).length == 0 then true else uuidTest (strTrim s))
    else false

/-- A reference field counts towards "at least one non-null well-formed
reference" exactly when it survives normalization as a trimmed uuid. -/
def refNonNullAmended : JsonVal → Bool
  | .absent => false
  | .nullv => false
  | .str s =>
    if s.length ≠ 0 then
      (if (strTrim s).length == 0 then false else uuidTest (strTrim s))
    else false

def contentOkAmended : Option String → Bool
  | none => false
  | some c => (strTrim c).length != 0

def noteCreationValidAmended (b : NotePayload) : Bool :=
  contentOkAmended b.content &&
  refOkAmended b.assetId && refOkAmended b.projectId && refOkAmended b.caseId &&
  (refNonNullAmended b.assetId || refNonNullAmended b.projectId || refNonNullAmended b.caseId)

lemma data_eq_nil_of_length_zero (s : String) (h : s.length = 0) : s.data = [] := by
  cases s with
  | mk data =>
    simp only [String.length] at h
    simpa using List.length_eq_zero.mp h

lemma uuidTest_of_length_zero (s : String) (h : s.length = 0) : uuidTest s = false := by
  simp [uuidTest, data_eq_nil_of_length_zero s h, splitOnChar]

lemma strTrim_length_zero_of (s : String) (h : s.length = 0) : (strTrim s).length = 0 := by
  simp [strTrim, data_eq_nil_of_length_zero s h, String.length]

lemma optSomeB_ok {ε : Type} (o : Option String) :
    optSomeB (ε := ε) (.ok o) = o.isSome := by
  cases o <;> rfl

lemma parseContent_norm_isOk (c : Option String) :
    exceptIsOk (parseNoteContent (normalizeNoteContent c)) = contentOkAmended c := by
  cases c with
  | none => rfl
  | some c =>
    simp only [normalizeNoteContent, parseNoteContent, contentOkAmended]
    by_cases h : c.length = 0
    · simp only [h, ne_eq, not_true_eq_false, if_false]
      have ht : ¬(1 ≤ c.length) := by omega
      have h2 := strTrim_length_zero_of c h
      simp [ht, exceptIsOk, h2]
    · simp only [ne_eq, h, not_false_eq_true, if_true]
      by_cases h2 : 1 ≤ (strTrim c).length <;> simp [h2, exceptIsOk] <;> omega

lemma parseRef_norm_isOk (f m : String) (v : JsonVal) :
    exceptIsOk (parseNoteRef f m (normalizeRef v)) = refOkAmended v := by
  cases v with
  | absent => rfl
  | nullv => rfl
  | str s =>
    simp only [normalizeRef, refOkAmended]
    by_cases h : s.length = 0
    · simp only [ne_eq, h, not_true_eq_false, if_false]
      simp [parseNoteRef, uuidTest_of_length_zero s h, exceptIsOk]
    · simp only [ne_eq, h, not_false_eq_true, if_true, sanitizeNullableId]
      by_cases h2 : (strTrim s).length = 0
      · simp [h2, parseNoteRef, exceptIsOk]
      · simp only [h2, beq_iff_eq, if_false, if_neg h2]
        cases hu : uuidTest (strTrim s) <;> simp [parseNoteRef, hu, exceptIsOk]

lemma parseRef_norm_someB (f m : String) (v : JsonVal) :
    optSomeB (parseNoteRef f m (normalizeRef v)) = refNonNullAmended v := by
  cases v with
  | absent => rfl
  | nullv => rfl
  | str s =>
    simp only [normalizeRef, refNonNullAmended]
    by_cases h : s.length = 0
    · simp only [ne_eq, h, not_true_eq_false, if_false]
      simp [parseNoteRef, uuidTest_of_length_zero s h, optSomeB]
    · simp only [ne_eq, h, not_false_eq_true, if_true, sanitizeNullableId]
      by_cases h2 : (strTrim s).length = 0
      · simp [h2, parseNoteRef, optSomeB]
      · simp only [h2, beq_iff_eq, if_false, if_neg h2]
        cases hu : uuidTest (strTrim s) <;> simp [parseNoteRef, hu, optSomeB]

lemma parseRef_norm_ok_none (f m : String) (v : JsonVal)
    (h1 : refOkAmended v = true) (h2 : refNonNullAmended v = false) :
    parseNoteRef f m (normalizeRef v) = .ok none := by
  have ho := parseRef_norm_isOk f m v
  have hs := parseRef_norm_someB f m v
  rw [h1] at ho
  rw [h2] at hs
  rcases hr : parseNoteRef f m (normalizeRef v) with i | o
  · rw [hr] at ho
    simp [exceptIsOk] at ho
  · rw [hr] at hs
    cases o with
    | none => rfl
    | some u => simp [optSomeB] at hs

lemma exceptIsOk_exists {ε α : Type} (e : Except ε α) (h : exceptIsOk e = true) :
    ∃ x, e = .ok x := by
  cases e with
  | error i => simp [exceptIsOk] at h
  | ok x => exact ⟨x, rfl⟩

lemma insertNoteParse_isOk_eq (b : NotePayload) :
    exceptIsOk (insertNoteSchemaParse (normalizeNoteBody b)) = noteCreationValidAmended b := by
  obtain ⟨c, va, vp, vk⟩ := b
  have hc := parseContent_norm_isOk c
  have ha := parseRef_norm_isOk "assetId" "Invalid asset ID" va
  have hp := parseRef_norm_isOk "projectId" "Invalid project ID" vp
  have hk := parseRef_norm_isOk "caseId" "Invalid case ID" vk
  have sa := parseRef_norm_someB "assetId" "Invalid asset ID" va
  have sp := parseRef_norm_someB "projectId" "Invalid project ID" vp
  have sk := parseRef_norm_someB "caseId" "Invalid case ID" vk
  simp only [noteCreationValidAmended, ← hc, ← ha, ← hp, ← hk, ← sa, ← sp, ← sk]
  rcases hrc : parseNoteContent (normalizeNoteContent c) with i | cc <;>
    rcases hra : parseNoteRef "assetId" "Invalid asset ID" (normalizeRef va) with i2 | aa <;>
      rcases hrp : parseNoteRef "projectId" "Invalid project ID" (normalizeRef vp) with i3 | pp <;>
        rcases hrk : parseNoteRef "caseId" "Invalid case ID" (normalizeRef vk) with i4 | kk <;>
          simp only [insertNoteSchemaParse, normalizeNoteBody, hrc, hra, hrp, hrk,
            exceptIsOk, optSomeB_ok, Bool.false_and, Bool.and_false, Bool.true_and,
            Bool.and_true] <;>
        first
          | rfl
          | (cases hor : (aa.isSome || pp.isSome || kk.isSome) <;>
              simp [hor, exceptIsOk])

/-- A note payload with non-empty content and a well-formed non-null asset
reference — the claim's success condition — but a malformed case reference. -/
def badCasePayload : NotePayload := ⟨some "hello", .str uuidA, .absent, .str "oops"⟩

/-- C6 counterexample: the payload satisfies the claim's right-hand side —
content non-empty after trimming and `assetId` a non-null well-formed
identifier (of an asset that even exists in the store) — yet creation fails
with a validation error on the malformed `caseId`, and nothing is persisted.
The claimed equivalence is therefore false. -/
theorem c6_counterexample :
    (strTrim "hello").length ≠ 0 ∧
    uuidTest uuidA = true ∧
    (POST_notes storeAP badCasePayload uuidQ 7).1 =
      .validationError [⟨"caseId", "Invalid case ID"⟩] ∧
    (POST_notes storeAP badCasePayload uuidQ 7).2 = storeAP := by decide

/-- C6 (amended): note creation passes schema validation iff the content is
non-empty after trimming, *every* provided reference is null, blank (trimmed
away to null) or a well-formed identifier, and at least one reference is a
non-null well-formed identifier; when the content is valid and all three
references are null, the result is exactly one validation error attached to
the `assetId` field; a validation failure persists nothing. -/
theorem c6_note_validation (s : Store) (b : NotePayload) (nid : String) (now : Nat) :
    (exceptIsOk (insertNoteSchemaParse (normalizeNoteBody b)) = noteCreationValidAmended b) ∧
    (contentOkAmended b.content = true →
     refOkAmended b.assetId = true → refNonNullAmended b.assetId = false →
     refOkAmended b.projectId = true → refNonNullAmended b.projectId = false →
     refOkAmended b.caseId = true → refNonNullAmended b.caseId = false →
     insertNoteSchemaParse (normalizeNoteBody b) =
       .error [⟨"assetId", "A note must be linked to an asset, project, or case"⟩]) ∧
    (∀ issues, (POST_notes s b nid now).1 = .validationError issues →
      (POST_notes s b nid now).2 = s) := by
  refine ⟨insertNoteParse_isOk_eq b, ?_, ?_⟩
  · intro hcont hao han hpo hpn hko hkn
    have hc : exceptIsOk (parseNoteContent (normalizeNoteContent b.content)) = true := by
      rw [parseContent_norm_isOk]; exact hcont
    obtain ⟨cc, hcc⟩ := exceptIsOk_exists _ hc
    have h1 := parseRef_norm_ok_none "assetId" "Invalid asset ID" b.assetId hao han
    have h2 := parseRef_norm_ok_none "projectId" "Invalid project ID" b.projectId hpo hpn
    have h3 := parseRef_norm_ok_none "caseId" "Invalid case ID" b.caseId hko hkn
    simp [insertNoteSchemaParse, normalizeNoteBody, hcc, h1, h2, h3]
  · intro issues hval
    rcases hq : insertNoteSchemaParse (normalizeNoteBody b) with e | d
    · simp [POST_notes, hq]
    · simp only [POST_notes, hq] at hval ⊢
      split at hval <;> simp_all

/-- Witness for C6 (amended): content "hello" with all three references null
yields exactly the single refine error attached to `assetId`. -/
theorem c6_note_validation_witness :
    insertNoteSchemaParse (normalizeNoteBody ⟨some "hello", .nullv, .absent, .nullv⟩) =
      .error [⟨"assetId", "A note must be linked to an asset, project, or case"⟩] :=
  (c6_note_validation ⟨[], [], [], []⟩ ⟨some "hello", .nullv, .absent, .nullv⟩ "n" 0).2.1
    (by decide) (by decide) (by decide) (by decide) (by decide) (by decide) (by decide)

end AssetMgr
